import Mathlib

/-!
Verification of the ShareSYNC frontend against its specification.

Each definition below is a shallow embedding of a function from the
repository's source (file and symbol named in the doc comment).
JavaScript `Date` values are modelled as integer millisecond timestamps;
JavaScript floating-point division is modelled by exact rational division
where only order comparisons matter; byte buffers are lists of naturals.
-/

namespace ShareSync

/-! ## DownloadPage.jsx -/

/-- `DownloadPage.jsx` line 139: `const isExpired = fileInfo && new
Date(fileInfo.expires_at) < new Date()`.  Timestamps in milliseconds;
the comparison is strict. -/
def isExpired (expiresAt now : Int) : Bool :=
  expiresAt < now

/-- The four mutually exclusive views `DownloadPage` can render
(lines 142-345): the loading card, the error card, the "Link Expired"
card, and the download card carrying the download button. -/
inductive DownloadView where
  | loading
  | errorCard
  | expiredCard
  | downloadCard
deriving DecidableEq

/-- `DownloadPage.jsx` lines 142-215: render selection.  The component
returns the loading card while loading, else the error card when `error`
is set, else the expired card when `isExpired`, else the download card. -/
def downloadPageRender (isLoading : Bool) (error : Option String)
    (expired : Bool) : DownloadView :=
  if isLoading then .loading
  else if error.isSome then .errorCard
  else if expired then .expiredCard
  else .downloadCard

/-- `DownloadPage.jsx` lines 63-67 (`fetchFileInfo`): the error message
set for a non-ok metadata response.  The 404 branch ignores everything
about the response except the status code. -/
def fetchFileInfoError (status : Nat) : String :=
  if status == 404 then "File not found or has expired"
  else "Failed to fetch file information"

/-- An HTTP response as observed by `fetchFileInfo`: ok flag, status
code, and the (otherwise unread) body text. -/
structure ShareResponse where
  ok : Bool
  status : Nat
  body : String

/-- `DownloadPage.jsx` lines 56-79 (`fetchFileInfo`): resulting error
state; `none` when the response is ok. -/
def fetchFileInfoResult (r : ShareResponse) : Option String :=
  if r.ok then none else some (fetchFileInfoError r.status)

/-- `DownloadPage.jsx` lines 99-107 (`handleDownload`): the error
message thrown for a non-ok download response, keyed on the status. -/
def downloadErrorMessage (status : Nat) : String :=
  if status == 401 then "Incorrect password"
  else if status == 404 then "File not found"
  else "Download failed"

/-- `DownloadPage.jsx` line 305: the download button's `disabled`
attribute, `isDownloading || (showPasswordInput && !password)`.
JavaScript `!password` is true exactly for the empty string. -/
def downloadButtonDisabled (isDownloading showPasswordInput : Bool)
    (password : String) : Bool :=
  isDownloading || (showPasswordInput && password.isEmpty)

/-! ## FilesPage.jsx -/

/-- `FilesPage.jsx` lines 121-130 (`getExpiryStatus`): classifies a
share by `hours = (expiry - now) / 3600000` (float division, modelled
exactly over the rationals). -/
def getExpiryStatus (expiryMs nowMs : Int) : String :=
  let diff : Int := expiryMs - nowMs
  let hours : ℚ := (diff : ℚ) / 3600000
  if hours ≤ 0 then "expired"
  else if hours ≤ 2 then "expiring-soon"
  else "active"

/-- `FilesPage.jsx` lines 648-653 (`handleDownload`): the guard at the
top of the share-page download handler; with a password required and an
empty password it sets an error and returns before any request. -/
def filesHandleDownloadGuard (passwordRequired : Bool)
    (password : String) : Except String Unit :=
  if passwordRequired && password.isEmpty then
    .error "Please enter the password to download this file."
  else
    .ok ()

/-! ## UploadPage.jsx -/

/-- One entry of `EXPIRY_OPTIONS` (`UploadPage.jsx` lines 10-14). -/
structure ExpiryOption where
  label : String
  value : String
  hours : Nat
deriving DecidableEq

/-- `UploadPage.jsx` lines 10-14: the three expiry choices offered. -/
def EXPIRY_OPTIONS : List ExpiryOption :=
  [⟨"2 Hours", "2h", 2⟩, ⟨"5 Hours", "5h", 5⟩, ⟨"1 Day", "1d", 24⟩]

/-- `UploadPage.jsx` line 30: `useState(EXPIRY_OPTIONS[0])`, the
initially selected expiry option. -/
def defaultSelectedExpiry : Option ExpiryOption :=
  EXPIRY_OPTIONS.head?

/-- `UploadPage.jsx` line 361 (`handleUpload`):
`formData.append('expiry_hours', selectedExpiry.hours)`. -/
def submittedExpiryHours (selectedExpiry : ExpiryOption) : Nat :=
  selectedExpiry.hours

/-- `UploadPage.jsx` lines 16-22 (`formatFileSize`, identical in
`DownloadPage.jsx` lines 19-25): the unit array. -/
def sizesUnits : List String :=
  ["Bytes", "KB", "MB", "GB"]

/-- `formatFileSize`'s unit index `Math.floor(Math.log(bytes) /
Math.log(1024))`: the floor of the real base-1024 logarithm, which for
positive naturals is `Nat.log 1024`. -/
def unitIndex (bytes : Nat) : Nat :=
  Nat.log 1024 bytes

/-- `formatFileSize`, with the numeric prefix elided: returns
`"0 Bytes"` for 0, else the unit selected by `sizes[i]`; `none` models
JavaScript `undefined` when the index falls outside the array. -/
def formatFileSize (bytes : Nat) : Option String :=
  if bytes = 0 then some "0 Bytes"
  else sizesUnits.get? (unitIndex bytes)

/-! ## ProtectedRoute.jsx -/

/-- The three possible render results of `ProtectedRoute`
(`ProtectedRoute.jsx` lines 16-41): the loading spinner, `null`, or the
protected children. -/
inductive RouteView where
  | loader
  | nothing
  | children
deriving DecidableEq

/-- `ProtectedRoute.jsx` lines 16-41: render the spinner while loading,
`null` when unauthenticated, the wrapped children otherwise. -/
def protectedRouteRender (isLoading isAuthenticated : Bool) : RouteView :=
  if isLoading then .loader
  else if !isAuthenticated then .nothing
  else .children

/-- `ProtectedRoute.jsx` lines 10-14: the effect calls
`navigate('/auth')` exactly when `!isLoading && !isAuthenticated`. -/
def protectedRouteRedirect (isLoading isAuthenticated : Bool) :
    Option String :=
  if !isLoading && !isAuthenticated then some "/auth" else none

/-! ## useP2P.js — signaling emissions -/

/-- A client-emitted signaling envelope: event name, the targeted peer
session, and the sender's own session id. -/
structure SignalMsg where
  kind : String
  target_session : String
  sender_session : String
deriving DecidableEq

/-- `useP2P.js` lines 246-254 (`createPeerConnection`,
`onicecandidate`): when an ICE candidate arrives and the socket is
present, exactly this message is emitted, targeted at the one peer the
connection was created for. -/
def emitIceCandidate (targetSessionId sessionId : String) : SignalMsg :=
  ⟨"ice_candidate", targetSessionId, sessionId⟩

/-- `useP2P.js` lines 332-353 (`handleWebRTCOffer`): the messages
emitted while handling a received offer.  `pcOk` models
`createPeerConnection` returning non-null, `sockOk` the socket being
present at the emit; on the success path exactly one `webrtc_answer`
targeted at the offer's `sender_session` is sent. -/
def handleWebRTCOfferEmits (senderSession sessionId : String)
    (pcOk sockOk : Bool) : List SignalMsg :=
  if pcOk then
    if sockOk then [⟨"webrtc_answer", senderSession, sessionId⟩] else []
  else []

/-- `useP2P.js` lines 382-432 (`connectToPeer`): the messages emitted
when connecting to a peer.  Nothing is sent when the data channel is
already open or a connection is already in progress; otherwise, on the
success path, exactly one `webrtc_offer` targeted at the requested
peer. -/
def connectToPeerEmits (targetSessionId sessionId : String)
    (channelOpen connectionInProgress pcOk sockOk : Bool) :
    List SignalMsg :=
  if channelOpen then []
  else if connectionInProgress then []
  else if pcOk then
    if sockOk then [⟨"webrtc_offer", targetSessionId, sessionId⟩] else []
  else []

/-! ## useP2P.js — peers state -/

/-- A peer entry as stored in the `peers` state (`useP2P.js`):
the server-assigned session id plus a display name. -/
structure Peer where
  session_id : String
  device_name : String
deriving DecidableEq

/-- `useP2P.js` lines 81-84 (`peer_joined` handler):
`setPeers(prev => [...prev.filter(p => p.session_id !==
data.session_id), data])` — remove any entry with the same session id,
then append the new peer. -/
def handlePeerJoined (prev : List Peer) (data : Peer) : List Peer :=
  (prev.filter (fun p => p.session_id != data.session_id)) ++ [data]

/-- `useP2P.js` lines 86-88 (`peer_left` handler):
`setPeers(prev => prev.filter(p => p.session_id !== data.session_id))`. -/
def handlePeerLeft (prev : List Peer) (sid : String) : List Peer :=
  prev.filter (fun p => p.session_id != sid)

/-! ## useP2P.js — P2P file transfer -/

/-- `useP2P.js` line 465: `const chunkSize = 16384`. -/
def chunkSize : Nat := 16384

/-- The data-channel messages of a transfer (`sendFileToPeer` /
`handleDataChannelMessage`): the JSON `file_info` header, a raw
`ArrayBuffer` chunk, and the JSON `file_complete` trailer. -/
inductive P2PMsg where
  | fileInfoMsg (fileName : String) (fileSize : Nat) (fileType : String)
  | chunkMsg (data : List Nat)
  | completeMsg
deriving DecidableEq

/-- `useP2P.js` lines 469-499: the chunking loop of `sendFileToPeer`.
Starting at `offset`, read `file.slice(offset, offset + chunkSize)`,
send it, advance by its byte length, and continue while
`offset < file.size`.  The first read happens unconditionally, so an
empty file still sends one (empty) chunk. -/
def sliceChunks (file : List Nat) (offset : Nat) : List (List Nat) :=
  if offset + ((file.drop offset).take chunkSize).length < file.length then
    (file.drop offset).take chunkSize ::
      sliceChunks file (offset + ((file.drop offset).take chunkSize).length)
  else
    [(file.drop offset).take chunkSize]
termination_by file.length - offset
decreasing_by
  simp only [List.length_take, List.length_drop, chunkSize] at *
  omega

/-- `useP2P.js` lines 436-506 (`sendFileToPeer`): the full message
sequence for one file — the `file_info` header carrying name, size and
type, then the chunks in order, then `file_complete`. -/
def sendFileToPeer (fileName fileType : String) (file : List Nat) :
    List P2PMsg :=
  .fileInfoMsg fileName file.length fileType ::
    ((sliceChunks file 0).map .chunkMsg ++ [.completeMsg])

/-- Receiver state for one sender (`fileInfoRef` and `fileChunksRef`
entries): the stored `file_info` (name, size, type) and the chunks
received so far. -/
structure RecvState where
  info : Option (String × Nat × String)
  chunks : List (List Nat)
deriving DecidableEq

/-- One completed delivery:
`downloadFile(new Blob(chunks), info.fileName)` with the blob typed by
`info.fileType` — the reconstructed byte sequence with its name and
type. -/
structure Delivered where
  fileName : String
  fileType : String
  bytes : List Nat
deriving DecidableEq

/-- `useP2P.js` lines 149-237 (`handleDataChannelMessage`), for one
sender: a chunk is stored only after a `file_info` has been seen;
`file_info` resets the chunk buffer; `file_complete` with stored info
concatenates the chunks into the delivered file and clears the
per-sender state. -/
def handleDataChannelMessage (st : RecvState) (m : P2PMsg) :
    RecvState × Option Delivered :=
  match m with
  | .chunkMsg c =>
    match st.info with
    | none => (st, none)
    | some _ => ({ st with chunks := st.chunks ++ [c] }, none)
  | .fileInfoMsg n s t => ({ info := some (n, s, t), chunks := [] }, none)
  | .completeMsg =>
    match st.info with
    | some (n, _, t) =>
      ({ info := none, chunks := [] }, some ⟨n, t, st.chunks.flatten⟩)
    | none => (st, none)

/-- Fold the receiver over a message sequence, collecting the files it
delivers in order. -/
def runReceiver (st : RecvState) (msgs : List P2PMsg) :
    RecvState × List Delivered :=
  match msgs with
  | [] => (st, [])
  | m :: rest =>
    let step := handleDataChannelMessage st m
    let next := runReceiver step.1 rest
    (next.1, step.2.toList ++ next.2)

/-- The receiver's state before any message: no file info, no chunks. -/
def initialRecvState : RecvState := ⟨none, []⟩

/-- The millisecond-to-hours divisor is positive; used to transfer
order facts through the rational division in `getExpiryStatus`. -/
theorem hours_div_nonpos_iff (d : Int) :
    ((d : ℚ) / 3600000 ≤ 0) ↔ d ≤ 0 := by
  rw [div_le_iff₀ (by norm_num : (0:ℚ) < 3600000), zero_mul, Int.cast_nonpos]

/-- A take followed by dropping exactly the taken length restores the
list. -/
theorem take_append_drop_length {α : Type} (l : List α) (n : Nat) :
    l.take n ++ l.drop ((l.take n).length) = l := by
  rcases Nat.le_total n l.length with h | h
  · rw [List.length_take, Nat.min_eq_left h, List.take_append_drop]
  · rw [List.take_of_length_le h, List.drop_length, List.append_nil]

/-- The chunking loop covers the file exactly: concatenating the
chunks produced from `offset` yields the remainder of the file. -/
theorem sliceChunks_flatten (file : List Nat) (offset : Nat) :
    (sliceChunks file offset).flatten = file.drop offset := by
  rw [sliceChunks]
  split
  next h =>
    rw [List.flatten_cons,
      sliceChunks_flatten file
        (offset + ((file.drop offset).take chunkSize).length),
      ← List.drop_drop]
    exact take_append_drop_length _ _
  next h =>
    have hlen : (file.drop offset).length ≤ chunkSize := by
      simp only [List.length_take, List.length_drop, chunkSize] at h ⊢
      omega
    simp [List.take_of_length_le hlen]
termination_by file.length - offset
decreasing_by
  simp only [List.length_take, List.length_drop, chunkSize] at *
  omega

/-- Every chunk produced by the chunking loop is at most `chunkSize`
bytes. -/
theorem sliceChunks_length_le (file : List Nat) (offset : Nat) :
    ∀ c ∈ sliceChunks file offset, c.length ≤ chunkSize := by
  intro c hc
  rw [sliceChunks] at hc
  split at hc
  next h =>
    rcases List.mem_cons.mp hc with h1 | h2
    · subst h1
      rw [List.length_take]
      exact Nat.min_le_left _ _
    · exact sliceChunks_length_le file _ c h2
  next h =>
    rcases List.mem_singleton.mp hc with h1
    subst h1
    rw [List.length_take]
    exact Nat.min_le_left _ _
termination_by file.length - offset
decreasing_by
  simp only [List.length_take, List.length_drop, chunkSize] at *
  omega

/-- After a `file_info` has been stored, feeding the receiver a run of
chunks followed by `file_complete` delivers exactly one file: the
concatenation of the buffered and the incoming chunks, under the
stored name and type. -/
theorem runReceiver_chunks (n : String) (s : Nat) (t : String)
    (chunks acc : List (List Nat)) :
    runReceiver ⟨some (n, s, t), acc⟩
        (chunks.map P2PMsg.chunkMsg ++ [P2PMsg.completeMsg])
      = (⟨none, []⟩, [⟨n, t, (acc ++ chunks).flatten⟩]) := by
  induction chunks generalizing acc with
  | nil => simp [runReceiver, handleDataChannelMessage]
  | cons c cs ih =>
    have step : runReceiver ⟨some (n, s, t), acc⟩
        ((c :: cs).map P2PMsg.chunkMsg ++ [P2PMsg.completeMsg])
        = runReceiver ⟨some (n, s, t), acc ++ [c]⟩
            (cs.map P2PMsg.chunkMsg ++ [P2PMsg.completeMsg]) := by
      simp [runReceiver, handleDataChannelMessage]
    rw [step, ih (acc ++ [c])]
    simp [List.append_assoc]

/-- No chunk message satisfies a predicate that is false on chunks;
used to count the header and trailer messages. -/
theorem countP_chunkMsg_eq_zero (p : P2PMsg → Bool)
    (hp : ∀ d, p (P2PMsg.chunkMsg d) = false) (l : List (List Nat)) :
    (l.map P2PMsg.chunkMsg).countP p = 0 := by
  induction l with
  | nil => simp
  | cons c cs ih => simp [List.countP_cons, hp, ih]

end ShareSync

open ShareSync

/-- Claim C1 (counterexample): at `now == expires_at` (both 1000 ms)
`DownloadPage`'s expiry check does NOT classify the share as expired,
and the component renders the download card, i.e. the download UI is
offered — contradicting the claim that such a request is treated as
expired and not served. -/
theorem c1_counterexample :
    isExpired 1000 1000 = false
    ∧ downloadPageRender false none (isExpired 1000 1000)
        = DownloadView.downloadCard := by
  constructor <;> decide

/-- Claim C1 (amended): `DownloadPage`'s `isExpired` is strict — it
classifies the share as expired exactly when `expires_at < now`, so at
`now == expires_at` the share is not treated as expired and the
download card is rendered; `FilesPage`'s `getExpiryStatus`, in
contrast, reports `"expired"` exactly when `expires_at ≤ now`, which
does cover the boundary instant. -/
theorem c1_expiry_boundary (e n : Int) :
    (isExpired e n = true ↔ e < n)
    ∧ (getExpiryStatus e n = "expired" ↔ e ≤ n)
    ∧ (e = n → downloadPageRender false none (isExpired e n)
        = DownloadView.downloadCard) := by
  refine ⟨by simp [isExpired], ?_, ?_⟩
  · have key : (((e - n : Int) : ℚ) / 3600000 ≤ 0) ↔ e ≤ n := by
      rw [hours_div_nonpos_iff, sub_nonpos]
    unfold getExpiryStatus
    by_cases h : e ≤ n
    · rw [if_pos (key.mpr h)]
      simp [h]
    · rw [if_neg (fun hc => h (key.mp hc))]
      split
      · exact iff_of_false (by decide) h
      · exact iff_of_false (by decide) h
  · intro he
    subst he
    simp [isExpired, downloadPageRender]

/-- Claim C1 witness: the amended boundary statements instantiated at
`expires_at = now = 5`. -/
theorem c1_expiry_boundary_witness :
    (isExpired 5 5 = true ↔ (5 : Int) < 5)
    ∧ (getExpiryStatus 5 5 = "expired" ↔ (5 : Int) ≤ 5)
    ∧ ((5 : Int) = 5 → downloadPageRender false none (isExpired 5 5)
        = DownloadView.downloadCard) :=
  c1_expiry_boundary 5 5

/-- Claim C2 (counterexample): a download response with HTTP status 423
surfaces as the generic `"Download failed"`, not `"Incorrect
password"` — contradicting the claim that the client reports
`"Incorrect password"` exactly for status 423. -/
theorem c2_counterexample :
    downloadErrorMessage 423 = "Download failed"
    ∧ ¬ downloadErrorMessage 423 = "Incorrect password" := by
  constructor <;> decide

/-- Claim C2 (amended): the client reports `"Incorrect password"`
exactly for HTTP status 401; a 423 (or any other) status yields a
different message. -/
theorem c2_incorrect_password_iff_401 (status : Nat) :
    downloadErrorMessage status = "Incorrect password" ↔ status = 401 := by
  unfold downloadErrorMessage
  by_cases h : status = 401
  · simp [h]
  · have hb : ¬ ((status == 401) = true) := by simpa using h
    rw [if_neg hb]
    split <;> exact iff_of_false (by decide) h

/-- Claim C2 witness: the amended mapping instantiated at status 401. -/
theorem c2_incorrect_password_iff_401_witness :
    downloadErrorMessage 401 = "Incorrect password" ↔ 401 = 401 :=
  c2_incorrect_password_iff_401 401

/-- Claim C3: the upload page offers exactly the expiry durations 2h,
5h and 24h, the initially selected option is the 2-hour one, and the
submitted `expiry_hours` is the hours value of the selected option,
hence always in {2, 5, 24}. -/
theorem c3_expiry_options (o : ExpiryOption) (ho : o ∈ EXPIRY_OPTIONS) :
    EXPIRY_OPTIONS.map ExpiryOption.hours = [2, 5, 24]
    ∧ defaultSelectedExpiry.map ExpiryOption.hours = some 2
    ∧ submittedExpiryHours o ∈ ([2, 5, 24] : List Nat) := by
  refine ⟨by decide, by decide, ?_⟩
  fin_cases ho <;> decide

/-- Claim C3 witness: the first option is a member and the theorem
instantiates at it. -/
theorem c3_expiry_options_witness :
    (⟨"2 Hours", "2h", 2⟩ : ExpiryOption) ∈ EXPIRY_OPTIONS
    ∧ (EXPIRY_OPTIONS.map ExpiryOption.hours = [2, 5, 24]
        ∧ defaultSelectedExpiry.map ExpiryOption.hours = some 2
        ∧ submittedExpiryHours ⟨"2 Hours", "2h", 2⟩ ∈ ([2, 5, 24] : List Nat)) :=
  ⟨by decide, c3_expiry_options ⟨"2 Hours", "2h", 2⟩ (by decide)⟩

/-- Claim C4: for a share with `has_password = true`, the download
button is disabled while the password is empty (any enabled state
implies a non-empty password), and `FilesPage`'s download handler
returns early with an error on an empty password, so no request is
issued without a password. -/
theorem c4_password_gate (hasPassword : Bool) (hp : hasPassword = true)
    (pw : String) :
    downloadButtonDisabled false hasPassword "" = true
    ∧ (downloadButtonDisabled false hasPassword pw = false → ¬ pw = "")
    ∧ filesHandleDownloadGuard hasPassword "" =
        Except.error "Please enter the password to download this file." := by
  subst hp
  refine ⟨by decide, ?_, rfl⟩
  intro hdis hempty
  subst hempty
  simp [downloadButtonDisabled] at hdis
  exact absurd hdis (by decide)

/-- Claim C5: signaling is always directed, never broadcast — the ICE
candidate handler, the connect path, and the offer handler each emit
messages carrying a `target_session` equal to the one peer they act
for, and handling a received `webrtc_offer` (with the peer connection
created and the socket present) sends exactly one `webrtc_answer`
whose `target_session` is the offer's `sender_session`. -/
theorem c5_directed_signaling (target sender sid : String)
    (chOpen inProg pcOk sockOk : Bool)
    (hpc : pcOk = true) (hso : sockOk = true) :
    handleWebRTCOfferEmits sender sid pcOk sockOk
      = [{ kind := "webrtc_answer", target_session := sender,
           sender_session := sid }]
    ∧ (∀ m ∈ handleWebRTCOfferEmits sender sid pcOk sockOk,
        m.target_session = sender)
    ∧ (∀ m ∈ connectToPeerEmits target sid chOpen inProg pcOk sockOk,
        m.kind = "webrtc_offer" ∧ m.target_session = target)
    ∧ (emitIceCandidate target sid).target_session = target := by
  subst hpc
  subst hso
  refine ⟨rfl, ?_, ?_, rfl⟩
  · intro m hm
    simp [handleWebRTCOfferEmits] at hm
    subst hm
    rfl
  · intro m hm
    cases chOpen <;> cases inProg <;> simp [connectToPeerEmits] at hm
    subst hm
    exact ⟨rfl, rfl⟩

/-- Claim C5 witness: instantiated at concrete peers, with the channel
not yet open and no connection in progress. -/
theorem c5_directed_signaling_witness :
    handleWebRTCOfferEmits "peerA" "me" true true
      = [{ kind := "webrtc_answer", target_session := "peerA",
           sender_session := "me" }]
    ∧ (∀ m ∈ handleWebRTCOfferEmits "peerA" "me" true true,
        m.target_session = "peerA")
    ∧ (∀ m ∈ connectToPeerEmits "peerB" "me" false false true true,
        m.kind = "webrtc_offer" ∧ m.target_session = "peerB")
    ∧ (emitIceCandidate "peerB" "me").target_session = "peerB" :=
  c5_directed_signaling "peerB" "peerA" "me" false false true true rfl rfl

/-- Claim C6: two metadata fetches that both come back non-ok with
HTTP 404 — one for a share that never existed, one for an
expired-and-deleted share — produce the same observable error, the
uniform message "File not found or has expired", regardless of any
other difference between the responses. -/
theorem c6_uniform_not_found (r1 r2 : ShareResponse)
    (h1o : r1.ok = false) (h1s : r1.status = 404)
    (h2o : r2.ok = false) (h2s : r2.status = 404) :
    fetchFileInfoResult r1 = fetchFileInfoResult r2
    ∧ fetchFileInfoResult r1 = some "File not found or has expired" := by
  simp [fetchFileInfoResult, fetchFileInfoError, h1o, h1s, h2o, h2s]

/-- Claim C6 witness: a never-existed share and an expired share, with
different response bodies, yield identical output. -/
theorem c6_uniform_not_found_witness :
    fetchFileInfoResult ⟨false, 404, "never-existed"⟩
      = fetchFileInfoResult ⟨false, 404, "expired-and-deleted"⟩
    ∧ fetchFileInfoResult ⟨false, 404, "never-existed"⟩
      = some "File not found or has expired" :=
  c6_uniform_not_found ⟨false, 404, "never-existed"⟩
    ⟨false, 404, "expired-and-deleted"⟩ rfl rfl rfl rfl

/-- Claim C7: when `isAuthenticated` is false, `ProtectedRoute` never
renders its protected children (it renders the spinner or `null`), and
once loading has completed its effect redirects to `/auth`. -/
theorem c7_protected_route (isLoading isAuthenticated : Bool)
    (hauth : isAuthenticated = false) :
    protectedRouteRender isLoading isAuthenticated ≠ RouteView.children
    ∧ (isLoading = false →
        protectedRouteRedirect isLoading isAuthenticated = some "/auth") := by
  subst hauth
  cases isLoading <;> exact ⟨by decide, by decide⟩

/-- Claim C7 witness: loading complete, unauthenticated. -/
theorem c7_protected_route_witness :
    protectedRouteRender false false ≠ RouteView.children
    ∧ (false = false →
        protectedRouteRedirect false false = some "/auth") :=
  c7_protected_route false false rfl

/-- Claim C8: P2P chunking round-trips.  The sender's message sequence
is one `file_info`, then the 16384-byte slices of the file in order,
then one `file_complete`; the slices cover the file exactly
(concatenating them restores it) and each is at most 16384 bytes; and
the receiver, fed that sequence from its initial state, delivers
exactly one file whose bytes, name and type equal the original's. -/
theorem c8_p2p_roundtrip (fileName fileType : String) (file : List Nat) :
    (runReceiver initialRecvState (sendFileToPeer fileName fileType file)).2
      = [⟨fileName, fileType, file⟩]
    ∧ (sliceChunks file 0).flatten = file
    ∧ (∀ c ∈ sliceChunks file 0, c.length ≤ chunkSize)
    ∧ (sendFileToPeer fileName fileType file).countP
        (fun m => match m with | .fileInfoMsg _ _ _ => true | _ => false) = 1
    ∧ (sendFileToPeer fileName fileType file).countP
        (fun m => match m with | .completeMsg => true | _ => false) = 1 := by
  have hflat : (sliceChunks file 0).flatten = file := by
    simpa using sliceChunks_flatten file 0
  refine ⟨?_, hflat, sliceChunks_length_le file 0, ?_, ?_⟩
  · have hstep :
        runReceiver initialRecvState (sendFileToPeer fileName fileType file)
          = runReceiver ⟨some (fileName, file.length, fileType), []⟩
              ((sliceChunks file 0).map P2PMsg.chunkMsg
                ++ [P2PMsg.completeMsg]) := by
      simp [sendFileToPeer, runReceiver, handleDataChannelMessage,
        initialRecvState]
    rw [hstep, runReceiver_chunks]
    simp [hflat]
  · rw [sendFileToPeer, List.countP_cons, List.countP_append,
      countP_chunkMsg_eq_zero _ (fun d => rfl)]
    rfl
  · rw [sendFileToPeer, List.countP_cons, List.countP_append,
      countP_chunkMsg_eq_zero _ (fun d => rfl)]
    rfl

/-- Claim C8 witness: the round trip instantiated at a concrete file
of three bytes. -/
theorem c8_p2p_roundtrip_witness :
    (runReceiver initialRecvState
        (sendFileToPeer "report.pdf" "application/pdf" [7, 8, 9])).2
      = [⟨"report.pdf", "application/pdf", [7, 8, 9]⟩]
    ∧ (sliceChunks [7, 8, 9] 0).flatten = [7, 8, 9]
    ∧ (∀ c ∈ sliceChunks [7, 8, 9] 0, c.length ≤ chunkSize)
    ∧ (sendFileToPeer "report.pdf" "application/pdf" [7, 8, 9]).countP
        (fun m => match m with | .fileInfoMsg _ _ _ => true | _ => false) = 1
    ∧ (sendFileToPeer "report.pdf" "application/pdf" [7, 8, 9]).countP
        (fun m => match m with | .completeMsg => true | _ => false) = 1 :=
  c8_p2p_roundtrip "report.pdf" "application/pdf" [7, 8, 9]

/-- Claim C9: both peer-list event handlers preserve uniqueness of
session ids — `peer_joined` filters out any entry with the incoming
session id before appending, and `peer_left` only removes entries — so
a duplicate-free peers list stays duplicate-free. -/
theorem c9_peers_unique (prev : List Peer) (data : Peer) (sid : String)
    (h : (prev.map Peer.session_id).Nodup) :
    ((handlePeerJoined prev data).map Peer.session_id).Nodup
    ∧ ((handlePeerLeft prev sid).map Peer.session_id).Nodup := by
  constructor
  · unfold handlePeerJoined
    rw [List.map_append, List.nodup_append]
    refine ⟨List.Nodup.sublist
        (List.Sublist.map _ (List.filter_sublist prev)) h,
      List.nodup_singleton _, ?_⟩
    intro x hx hx'
    simp only [List.map_cons, List.map_nil, List.mem_singleton] at hx'
    subst hx'
    simp only [List.mem_map, List.mem_filter] at hx
    obtain ⟨p, ⟨hpmem, hpq⟩, hpeq⟩ := hx
    rw [bne_iff_ne] at hpq
    exact hpq hpeq
  · exact List.Nodup.sublist
      (List.Sublist.map _ (List.filter_sublist prev)) h

/-- Claim C9 witness: a two-peer list, a rejoin of the first peer, and
a departure of the second. -/
theorem c9_peers_unique_witness :
    ((handlePeerJoined [⟨"s1", "alpha"⟩, ⟨"s2", "beta"⟩]
        ⟨"s1", "gamma"⟩).map Peer.session_id).Nodup
    ∧ ((handlePeerLeft [⟨"s1", "alpha"⟩, ⟨"s2", "beta"⟩] "s2").map
        Peer.session_id).Nodup :=
  c9_peers_unique [⟨"s1", "alpha"⟩, ⟨"s2", "beta"⟩] ⟨"s1", "gamma"⟩ "s2"
    (by decide)

/-- Claim C10: `formatFileSize 0` is `"0 Bytes"`; for every byte count
`0 < b < 1024^4` the unit index (the floor of the base-1024 logarithm)
is within the bounds of the four-element unit array, so a unit is
always found; and for `b ≥ 1024^4` the index reaches past the array
and the unit lookup is `undefined` (`none`). -/
theorem c10_format_file_size (b : Nat) (h1 : 0 < b) (h2 : b < 1024 ^ 4) :
    formatFileSize 0 = some "0 Bytes"
    ∧ unitIndex b < sizesUnits.length
    ∧ (formatFileSize b).isSome = true
    ∧ ∀ c : Nat, 1024 ^ 4 ≤ c →
        sizesUnits.length ≤ unitIndex c ∧ formatFileSize c = none := by
  have hlen : sizesUnits.length = 4 := rfl
  have hidx : unitIndex b < 4 :=
    Nat.log_lt_of_lt_pow (by omega) h2
  refine ⟨by simp [formatFileSize], by rw [hlen]; exact hidx, ?_, ?_⟩
  · have hb0 : b ≠ 0 := by omega
    rw [formatFileSize, if_neg hb0]
    have hne : sizesUnits.get? (unitIndex b) ≠ none := by
      rw [Ne, List.get?_eq_none, hlen]
      omega
    exact Option.isSome_iff_ne_none.mpr hne
  · intro c hc
    have hpow : 0 < 1024 ^ 4 := by norm_num
    have hc0 : c ≠ 0 := by omega
    have hge : 4 ≤ unitIndex c :=
      (Nat.pow_le_iff_le_log (by norm_num) hc0).mp hc
    refine ⟨by rw [hlen]; exact hge, ?_⟩
    rw [formatFileSize, if_neg hc0]
    exact List.get?_eq_none.mpr (by rw [hlen]; omega)

/-- Claim C10 witness: instantiated at 500000 bytes, within the
intended domain. -/
theorem c10_format_file_size_witness :
    0 < 500000 ∧ 500000 < 1024 ^ 4
    ∧ (formatFileSize 0 = some "0 Bytes"
        ∧ unitIndex 500000 < sizesUnits.length
        ∧ (formatFileSize 500000).isSome = true
        ∧ ∀ c : Nat, 1024 ^ 4 ≤ c →
            sizesUnits.length ≤ unitIndex c ∧ formatFileSize c = none) :=
  ⟨by norm_num, by norm_num,
    c10_format_file_size 500000 (by norm_num) (by norm_num)⟩

/-- Claim C4 witness: instantiated at `has_password = true` and the
password `"x"`. -/
theorem c4_password_gate_witness :
    downloadButtonDisabled false true "" = true
    ∧ (downloadButtonDisabled false true "x" = false → ¬ "x" = "")
    ∧ filesHandleDownloadGuard true "" =
        Except.error "Please enter the password to download this file." :=
  c4_password_gate true rfl "x"
